import Mathlib

/-!
# Verification of the Chatbot response-orchestration core

Shallow embedding of the rate limiter (`src/backend/src/utils/rate-limiter.js`),
the query cache (`src/backend/src/utils/query-cache.js`), the related-questions
sampler (`src/backend/src/utils/related-questions.js`), the conversational
chatbot router (`src/backend/src/utils/conversational-chatbot.js`) and the
python worker bridge (`src/backend/src/utils/pythonProcessManager.js`),
together with proofs of the specification's testable properties.

Timestamps are modelled as `Nat` milliseconds (JavaScript `Date.now()`).
JavaScript `Map` objects are modelled as association lists that preserve
insertion order: `set` of an existing key updates it in place, `set` of a
fresh key appends, `delete` removes the entry, and iteration order is list
order — exactly the ECMAScript `Map` iteration contract.
-/

namespace JsMap

variable {β : Type _}

/-- `Map.get k`: first (and, under the no-duplicate-keys invariant, only)
binding of `k`. -/
def mapGet (m : List (String × β)) (k : String) : Option β :=
  match m with
  | [] => none
  | (k', v) :: rest => if k' = k then some v else mapGet rest k

/-- `Map.set k v`: update in place when `k` is present, append otherwise
(ECMAScript `Map` keeps the original insertion position on update). -/
def mapSet (m : List (String × β)) (k : String) (v : β) : List (String × β) :=
  match m with
  | [] => [(k, v)]
  | (k', v') :: rest =>
      if k' = k then (k, v) :: rest else (k', v') :: mapSet rest k v

/-- `Map.delete k`: remove the binding of `k` (the first occurrence; under the
no-duplicate-keys invariant there is at most one). -/
def mapDelete (m : List (String × β)) (k : String) : List (String × β) :=
  match m with
  | [] => []
  | (k', v') :: rest =>
      if k' = k then rest else (k', v') :: mapDelete rest k

@[simp] theorem mapGet_nil (k : String) : mapGet ([] : List (String × β)) k = none := rfl

@[simp] theorem mapGet_cons (k' : String) (v : β) (rest : List (String × β)) (k : String) :
    mapGet ((k', v) :: rest) k = if k' = k then some v else mapGet rest k := rfl

@[simp] theorem mapGet_mapSet_self (m : List (String × β)) (k : String) (v : β) :
    mapGet (mapSet m k v) k = some v := by
  induction m with
  | nil => simp [mapGet, mapSet]
  | cons hd tl ih =>
      obtain ⟨k', v'⟩ := hd
      by_cases h : k' = k <;> simp [mapGet, mapSet, h, ih]

theorem mapGet_mapSet_ne (m : List (String × β)) (k k₀ : String) (v : β)
    (h : k ≠ k₀) : mapGet (mapSet m k v) k₀ = mapGet m k₀ := by
  induction m with
  | nil => simp [mapGet, mapSet, h]
  | cons hd tl ih =>
      obtain ⟨k', v'⟩ := hd
      by_cases hk : k' = k
      · subst hk; simp [mapGet, mapSet, h]
      · simp [mapGet, mapSet, hk, ih]

theorem mapGet_mapDelete_ne (m : List (String × β)) (k k₀ : String)
    (h : k ≠ k₀) : mapGet (mapDelete m k) k₀ = mapGet m k₀ := by
  induction m with
  | nil => simp [mapDelete]
  | cons hd tl ih =>
      obtain ⟨k', v'⟩ := hd
      by_cases hk : k' = k
      · subst hk; simp [mapGet, mapDelete, h]
      · simp [mapGet, mapDelete, hk, ih]

/-- Keys of an assoc-list map. -/
def keys (m : List (String × β)) : List String := m.map Prod.fst

theorem mapGet_eq_none_of_not_mem_keys (m : List (String × β)) (k : String)
    (h : k ∉ keys m) : mapGet m k = none := by
  induction m with
  | nil => rfl
  | cons hd tl ih =>
      obtain ⟨k', v'⟩ := hd
      simp only [keys, List.map_cons, List.mem_cons, not_or] at h
      simp [mapGet, Ne.symm h.1, ih (by simpa [keys] using h.2)]

theorem mapGet_mapDelete_self (m : List (String × β)) (k : String)
    (hnd : (keys m).Nodup) : mapGet (mapDelete m k) k = none := by
  induction m with
  | nil => rfl
  | cons hd tl ih =>
      obtain ⟨k', v'⟩ := hd
      simp only [keys, List.map_cons, List.nodup_cons] at hnd
      by_cases hk : k' = k
      · subst hk
        simpa [mapDelete] using
          mapGet_eq_none_of_not_mem_keys tl k' (by simpa [keys] using hnd.1)
      · simp [mapGet, mapDelete, hk, ih hnd.2]

theorem length_mapSet (m : List (String × β)) (k : String) (v : β) :
    (mapSet m k v).length = m.length ∨ (mapSet m k v).length = m.length + 1 := by
  induction m with
  | nil => simp [mapSet]
  | cons hd tl ih =>
      obtain ⟨k', v'⟩ := hd
      by_cases hk : k' = k
      · simp [mapSet, hk]
      · rcases ih with h | h <;> simp [mapSet, hk, h]

theorem length_mapDelete_le (m : List (String × β)) (k : String) :
    (mapDelete m k).length ≤ m.length := by
  induction m with
  | nil => simp [mapDelete]
  | cons hd tl ih =>
      obtain ⟨k', v'⟩ := hd
      by_cases hk : k' = k
      · simp [mapDelete, hk]
      · simp only [mapDelete, hk, if_false, List.length_cons]
        omega

end JsMap

open JsMap

/-! ## Rate limiter (`rate-limiter.js`) -/

namespace RateLimiter

/-- Configuration of a `RateLimiter` instance: `constructor(windowMs, maxRequests)`,
defaults 15 minutes and 100 requests. -/
structure Config where
  windowMs : Nat
  maxRequests : Nat

/-- The constructor defaults: `windowMs = 15 * 60 * 1000`, `maxRequests = 100`. -/
def defaultConfig : Config := { windowMs := 15 * 60 * 1000, maxRequests := 100 }

/-- A per-IP request window: `{ count, resetTime }`. -/
structure Window where
  count : Nat
  resetTime : Nat
  deriving DecidableEq, Repr

/-- Mutable state of a `RateLimiter`: `this.requests` and `this.blockedIPs`. -/
structure State where
  requests : List (String × Window)
  blockedIPs : List (String × Nat)
  deriving DecidableEq, Repr

/-- The freshly constructed limiter: both maps empty. -/
def initState : State := { requests := [], blockedIPs := [] }

/-- `Math.ceil(x / 1000)` for a non-negative millisecond count `x`. -/
def ceilSeconds (x : Nat) : Nat := (x + 999) / 1000

/-- `isBlocked(ip)` at time `now`: true iff the stored block expiry is in the
future; an expired block entry is deleted lazily. Returns the flag and the
possibly-updated state. -/
def isBlocked (now : Nat) (ip : String) (s : State) : Bool × State :=
  match mapGet s.blockedIPs ip with
  | some blockExpiry =>
      if now < blockExpiry then (true, s)
      else (false, { s with blockedIPs := mapDelete s.blockedIPs ip })
  | none => (false, s)

/-- The default block duration of `blockIP`: one hour. -/
def defaultBlockMs : Nat := 60 * 60 * 1000

/-- `blockIP(ip, durationMs)` at time `now`: record the block expiry. -/
def blockIP (now : Nat) (ip : String) (durationMs : Nat) (s : State) : State :=
  { s with blockedIPs := mapSet s.blockedIPs ip (now + durationMs) }

/-- The line `blockIP` prints via `console.log`:
`` `IP ${ip} blocked for ${durationMs / 1000} seconds` ``.
The raw caller identity is interpolated into the message. -/
def blockIPLog (ip : String) (durationMs : Nat) : String :=
  "IP " ++ ip ++ " blocked for " ++ toString (durationMs / 1000) ++ " seconds"

/-- Result of `checkLimit`. `allowed: true` carries `remainingRequests` and
`resetTime`; `allowed: false` carries `reason` and `remainingTime` (seconds). -/
inductive CheckResult where
  | allow (remainingRequests : Nat) (resetTime : Nat)
  | deny (reason : String) (remainingTime : Nat)
  deriving DecidableEq, Repr

/-- `checkLimit(ip)` at time `now`, returning the decision and the new state. -/
def checkLimit (cfg : Config) (now : Nat) (ip : String) (s : State) :
    CheckResult × State :=
  let (blocked, s) := isBlocked now ip s
  if blocked then
    -- `this.blockedIPs.get(ip)` is still present because `isBlocked` kept it
    let expiry := (mapGet s.blockedIPs ip).getD 0
    (.deny "IP is temporarily blocked" (ceilSeconds (expiry - now)), s)
  else
    match mapGet s.requests ip with
    | none =>
        -- First request from this IP
        (.allow (cfg.maxRequests - 1) (now + cfg.windowMs),
         { s with requests := mapSet s.requests ip ⟨1, now + cfg.windowMs⟩ })
    | some userRequests =>
        if userRequests.resetTime < now then
          -- Window has expired: reset it
          (.allow (cfg.maxRequests - 1) (now + cfg.windowMs),
           { s with requests := mapSet s.requests ip ⟨1, now + cfg.windowMs⟩ })
        else if cfg.maxRequests ≤ userRequests.count then
          -- Limit exceeded: block the IP (default duration) and deny
          (.deny "Rate limit exceeded" (ceilSeconds (userRequests.resetTime - now)),
           blockIP now ip defaultBlockMs s)
        else
          -- Increment counter
          (.allow (cfg.maxRequests - (userRequests.count + 1)) userRequests.resetTime,
           { s with requests :=
               mapSet s.requests ip ⟨userRequests.count + 1, userRequests.resetTime⟩ })

/-- Run `checkLimit` once per timestamp in `ts`, threading the state. -/
def runRequests (cfg : Config) (ip : String) (ts : List Nat) (s : State) :
    List CheckResult × State :=
  match ts with
  | [] => ([], s)
  | t :: rest =>
      let (r, s') := checkLimit cfg t ip s
      let (rs, s'') := runRequests cfg ip rest s'
      (r :: rs, s'')

/-- Whether a `CheckResult` is an `Allow`. -/
def CheckResult.isAllow : CheckResult → Bool
  | .allow _ _ => true
  | .deny _ _ => false

theorem runRequests_append (cfg : Config) (ip : String) (l₁ l₂ : List Nat) (s : State) :
    runRequests cfg ip (l₁ ++ l₂) s =
      ((runRequests cfg ip l₁ s).fst ++
         (runRequests cfg ip l₂ (runRequests cfg ip l₁ s).snd).fst,
       (runRequests cfg ip l₂ (runRequests cfg ip l₁ s).snd).snd) := by
  induction l₁ generalizing s with
  | nil => simp [runRequests]
  | cons t rest ih => simp [runRequests, ih]

theorem runRequests_length (cfg : Config) (ip : String) (ts : List Nat) (s : State) :
    (runRequests cfg ip ts s).fst.length = ts.length := by
  induction ts generalizing s with
  | nil => rfl
  | cons t rest ih => simp [runRequests, ih]

/-- Steady state of the window: while every request time stays inside the
window (`t ≤ r`) and the running count stays below the ceiling, each call is
allowed and just increments the count. -/
theorem runRequests_steady (cfg : Config) (ip : String) (rest : List Nat)
    (c r : Nat) (h1 : ∀ t ∈ rest, t ≤ r) (h2 : c + rest.length ≤ cfg.maxRequests) :
    runRequests cfg ip rest ⟨[(ip, ⟨c, r⟩)], []⟩ =
      ((runRequests cfg ip rest ⟨[(ip, ⟨c, r⟩)], []⟩).fst,
       ⟨[(ip, ⟨c + rest.length, r⟩)], []⟩) ∧
    ∀ res ∈ (runRequests cfg ip rest ⟨[(ip, ⟨c, r⟩)], []⟩).fst, res.isAllow = true := by
  induction rest generalizing c with
  | nil => simp [runRequests]
  | cons t rest ih =>
      have ht : t ≤ r := h1 t (by simp)
      have hc : ¬ cfg.maxRequests ≤ c := by
        simp only [List.length_cons] at h2; omega
      have hstep : checkLimit cfg t ip ⟨[(ip, ⟨c, r⟩)], []⟩ =
          (.allow (cfg.maxRequests - (c + 1)) r, ⟨[(ip, ⟨c + 1, r⟩)], []⟩) := by
        simp [checkLimit, isBlocked, mapGet, mapSet, Nat.not_lt.mpr ht, hc]
      have ih' := ih (c + 1) (fun t' ht' => h1 t' (by simp [ht']))
        (by simp only [List.length_cons] at h2; omega)
      constructor
      · simp only [runRequests, hstep]
        rw [ih'.1]
        simp [List.length_cons]; omega
      · intro res hres
        simp only [runRequests, hstep, List.mem_cons] at hres
        rcases hres with h | h
        · subst h; rfl
        · exact ih'.2 res (by simpa using h)

theorem runRequests_cons (cfg : Config) (ip : String) (t : Nat) (rest : List Nat)
    (s : State) :
    runRequests cfg ip (t :: rest) s =
      ((checkLimit cfg t ip s).fst ::
         (runRequests cfg ip rest (checkLimit cfg t ip s).snd).fst,
       (runRequests cfg ip rest (checkLimit cfg t ip s).snd).snd) := by
  simp [runRequests]

end RateLimiter

open RateLimiter in
/-- **C1.** From the initial state (no window, no block), 101 `checkLimit`
calls from one caller whose timestamps all fall inside the first call's
15-minute window yield: requests 1–100 allowed, request 101 denied with
reason `"Rate limit exceeded"`, and the caller placed under a temporary
block of the default duration (1 hour) from the time of the denied call. -/
theorem rate_limiter_window_ceiling_C1 (ip : String) (t0 tl : Nat)
    (mid : List Nat) (hlen : mid.length = 99)
    (hmid : ∀ t ∈ mid, t ≤ t0 + 900000) (htl : tl ≤ t0 + 900000) :
    (runRequests defaultConfig ip (t0 :: mid ++ [tl]) initState).fst.length = 101 ∧
    (∀ res ∈ (runRequests defaultConfig ip (t0 :: mid ++ [tl]) initState).fst.dropLast,
        res.isAllow = true) ∧
    (runRequests defaultConfig ip (t0 :: mid ++ [tl]) initState).fst.getLast? =
      some (.deny "Rate limit exceeded" (ceilSeconds (t0 + 900000 - tl))) ∧
    (runRequests defaultConfig ip (t0 :: mid ++ [tl]) initState).snd.blockedIPs =
      [(ip, tl + defaultBlockMs)] := by
  have hstep0 : checkLimit defaultConfig t0 ip initState =
      (.allow 99 (t0 + 900000), ⟨[(ip, ⟨1, t0 + 900000⟩)], []⟩) := by
    simp [checkLimit, isBlocked, mapGet, mapSet, initState, defaultConfig]
  have h2 : (1 : Nat) + mid.length ≤ defaultConfig.maxRequests := by
    simp [hlen, defaultConfig]
  obtain ⟨hmidrun, hmidall⟩ :=
    runRequests_steady defaultConfig ip mid 1 (t0 + 900000) hmid h2
  have hlast : checkLimit defaultConfig tl ip ⟨[(ip, ⟨1 + mid.length, t0 + 900000⟩)], []⟩ =
      (.deny "Rate limit exceeded" (ceilSeconds (t0 + 900000 - tl)),
       ⟨[(ip, ⟨1 + mid.length, t0 + 900000⟩)], [(ip, tl + defaultBlockMs)]⟩) := by
    have hcnt : defaultConfig.maxRequests ≤ 1 + mid.length := by
      simp [hlen, defaultConfig]
    simp [checkLimit, isBlocked, mapGet, blockIP, mapSet, Nat.not_lt.mpr htl, hcnt]
  have hsnd : (runRequests defaultConfig ip mid ⟨[(ip, ⟨1, t0 + 900000⟩)], []⟩).snd =
      ⟨[(ip, ⟨1 + mid.length, t0 + 900000⟩)], []⟩ := by
    simpa using congrArg Prod.snd hmidrun
  have hrun : runRequests defaultConfig ip (t0 :: mid ++ [tl]) initState =
      ((.allow 99 (t0 + 900000) ::
          (runRequests defaultConfig ip mid ⟨[(ip, ⟨1, t0 + 900000⟩)], []⟩).fst) ++
         [.deny "Rate limit exceeded" (ceilSeconds (t0 + 900000 - tl))],
       ⟨[(ip, ⟨1 + mid.length, t0 + 900000⟩)], [(ip, tl + defaultBlockMs)]⟩) := by
    rw [runRequests_append, runRequests_cons, hstep0]
    dsimp only
    rw [hsnd, runRequests_cons, hlast]
    simp [runRequests]
  refine ⟨?_, ?_, ?_, ?_⟩
  · rw [hrun]
    simp [runRequests_length, hlen]
  · intro res hres
    rw [hrun] at hres
    rw [List.dropLast_concat] at hres
    rcases List.mem_cons.mp hres with h | h
    · subst h; rfl
    · exact hmidall res h
  · rw [hrun]
    exact List.getLast?_concat _
  · rw [hrun]

open RateLimiter in
/-- Witness for C1 at a concrete input: caller `"ip-A"`, all 101 requests at
time 0 inside the first 15-minute window. -/
theorem rate_limiter_window_ceiling_C1_witness :
    (List.replicate 99 0).length = 99 ∧
    (∀ t ∈ List.replicate 99 (0 : Nat), t ≤ 0 + 900000) ∧
    (0 : Nat) ≤ 0 + 900000 ∧
    ((runRequests defaultConfig "ip-A" (0 :: List.replicate 99 0 ++ [0]) initState).fst.length
        = 101 ∧
     (∀ res ∈ (runRequests defaultConfig "ip-A"
          (0 :: List.replicate 99 0 ++ [0]) initState).fst.dropLast,
        res.isAllow = true) ∧
     (runRequests defaultConfig "ip-A" (0 :: List.replicate 99 0 ++ [0]) initState).fst.getLast?
        = some (.deny "Rate limit exceeded" (ceilSeconds (0 + 900000 - 0))) ∧
     (runRequests defaultConfig "ip-A"
          (0 :: List.replicate 99 0 ++ [0]) initState).snd.blockedIPs =
        [("ip-A", 0 + defaultBlockMs)]) :=
  ⟨by simp, by simp, by simp,
   rate_limiter_window_ceiling_C1 "ip-A" 0 0 (List.replicate 99 0)
     (by simp) (by simp) (by simp)⟩

open RateLimiter in
/-- **C4.** While a caller's block has not expired (`now < expiry`),
`checkLimit` denies whatever the window state is — in particular when no
window exists or the window has expired — and leaves the state unchanged:
the block is consulted before any window check. -/
theorem rate_limiter_block_precedence_C4 (cfg : Config) (now : Nat)
    (ip : String) (s : RateLimiter.State) (e : Nat)
    (hb : mapGet s.blockedIPs ip = some e) (hlt : now < e) :
    checkLimit cfg now ip s =
      (.deny "IP is temporarily blocked" (ceilSeconds (e - now)), s) := by
  simp [checkLimit, isBlocked, hb, hlt]

open RateLimiter in
/-- Witness for C4: caller `"ip-A"` blocked until time 5000, checked at time
2, with an empty request-window map. -/
theorem rate_limiter_block_precedence_C4_witness :
    mapGet (State.mk [] [("ip-A", 5000)]).blockedIPs "ip-A" = some 5000 ∧
    (2 : Nat) < 5000 ∧
    checkLimit defaultConfig 2 "ip-A" (State.mk [] [("ip-A", 5000)]) =
      (.deny "IP is temporarily blocked" (ceilSeconds (5000 - 2)),
       State.mk [] [("ip-A", 5000)]) :=
  ⟨by decide, by decide,
   rate_limiter_block_precedence_C4 defaultConfig 2 "ip-A"
     (State.mk [] [("ip-A", 5000)]) 5000 (by decide) (by decide)⟩

/-! ## Query cache (`query-cache.js`) -/

namespace QueryCache

/-- `generateKey(query, provider, useRag, topK)` builds
`` `${query}|${provider}|${useRag}|${topK}` `` and returns its MD5 hex digest.
The digest is modelled by the pre-hash key string itself: MD5 maps equal
inputs to equal digests, so every collision of the pre-hash string is a
collision of the real key, and distinct slots for distinct key strings is
the spec's own stable-hash assumption. -/
def generateKey (query : String) (provider : String) (useRag : Bool)
    (topK : Nat) : String :=
  query ++ "|" ++ provider ++ "|" ++ (if useRag then "true" else "false") ++
    "|" ++ toString topK

/-- A cache entry as stored by `set`. -/
structure Entry (α : Type _) where
  response : α
  timestamp : Nat
  hits : Nat
  lastAccessed : Option Nat
  query : String
  provider : String
  useRag : Bool
  topK : Nat
  deriving DecidableEq, Repr

/-- The backing `Map`, in insertion order. -/
def Cache (α : Type _) := List (String × Entry α)

instance (α : Type _) [DecidableEq α] : DecidableEq (Cache α) := by
  unfold Cache; infer_instance

/-- `this.cache.keys().next().value` eviction: remove the first-inserted
binding (the head of the insertion-ordered map). -/
def evictOldest {α : Type _} (cache : Cache α) : Cache α :=
  match cache.head? with
  | some (firstKey, _) => JsMap.mapDelete cache firstKey
  | none => cache

/-- `set(query, provider, useRag, topK, response)` at time `now`: evict the
oldest entry when the map is at capacity, then insert the fresh entry with
`hits = 1`. -/
def set {α : Type _} (maxSize : Nat) (query provider : String) (useRag : Bool)
    (topK : Nat) (response : α) (now : Nat) (cache : Cache α) : Cache α :=
  let key := generateKey query provider useRag topK
  let cache1 := if maxSize ≤ cache.length then evictOldest cache else cache
  JsMap.mapSet cache1 key
    ⟨response, now, 1, none, query, provider, useRag, topK⟩

/-- The object `get` returns on a hit: the spread response plus
`cached`, `cacheHits` and `cacheAge` (seconds). -/
structure CachedView (α : Type _) where
  response : α
  cached : Bool
  cacheHits : Nat
  cacheAge : Nat
  deriving DecidableEq, Repr

/-- `get(query, provider, useRag, topK)` at time `now`: miss on absence;
miss-and-delete when `now - timestamp > ttl`; otherwise post-increment
`hits`, stamp `lastAccessed`, and return the tagged response. -/
def get {α : Type _} (ttl : Nat) (now : Nat) (query provider : String)
    (useRag : Bool) (topK : Nat) (cache : Cache α) :
    Option (CachedView α) × Cache α :=
  let key := generateKey query provider useRag topK
  match JsMap.mapGet cache key with
  | none => (none, cache)
  | some entry =>
      if ttl < now - entry.timestamp then
        (none, JsMap.mapDelete cache key)
      else
        (some ⟨entry.response, true, entry.hits + 1, (now - entry.timestamp) / 1000⟩,
         JsMap.mapSet cache key
           { entry with hits := entry.hits + 1, lastAccessed := some now })

/-- `cleanup()` at time `now`: the periodic sweep deleting every entry with
`now - timestamp > ttl`. -/
def cleanup {α : Type _} (ttl : Nat) (now : Nat) (cache : Cache α) : Cache α :=
  cache.filter (fun p => decide (now - p.2.timestamp ≤ ttl))

theorem evictOldest_eq_tail {α : Type _} (cache : Cache α) :
    evictOldest cache = cache.tail := by
  cases cache with
  | nil => rfl
  | cons hd tl =>
      obtain ⟨k, v⟩ := hd
      simp [evictOldest, JsMap.mapDelete]

/-- Nothing acquires a binding it did not have: if `k` is absent, it is still
absent after deleting any key. -/
theorem mapGet_mapDelete_of_none {α : Type _} (m : List (String × α)) (k k' : String)
    (h : JsMap.mapGet m k = none) : JsMap.mapGet (JsMap.mapDelete m k') k = none := by
  induction m with
  | nil => rfl
  | cons hd tl ih =>
      obtain ⟨k₀, v₀⟩ := hd
      simp only [JsMap.mapGet] at h
      by_cases h0 : k₀ = k
      · simp [h0] at h
      · simp only [JsMap.mapGet, h0, if_false] at h
        by_cases h1 : k₀ = k'
        · simpa [JsMap.mapDelete, h1] using h
        · simp [JsMap.mapDelete, h1, JsMap.mapGet, h0, ih h]

/-- Distinct `topK` renderings give distinct key strings. -/
theorem generateKey_ne_of_topK (q p : String) (u : Bool) (k k' : Nat)
    (h : toString k ≠ toString k') : generateKey q p u k ≠ generateKey q p u k' := by
  intro he
  apply h
  have hd := congrArg String.data he
  simp only [generateKey, String.data_append, List.append_assoc] at hd
  have h1 := List.append_cancel_left hd
  have h2 := List.append_cancel_left h1
  have h3 := List.append_cancel_left h2
  have h4 := List.append_cancel_left h3
  have h5 := List.append_cancel_left h4
  have h6 := List.append_cancel_left h5
  exact String.ext h6

end QueryCache

open QueryCache in
/-- Counterexample to C2 as stated: the immediate second identical call
returns `cacheHits = 2`, not `1` — `set` stores `hits: 1` and `get`
post-increments before reading the field. -/
theorem query_cache_second_hit_C2_counterexample :
    ((QueryCache.get 3600000 0 "What is machine learning?" "p1" true 3
        (QueryCache.set 1000 "What is machine learning?" "p1" true 3 (0 : Nat) 0
          [])).fst).map CachedView.cacheHits = some 2 ∧ (2 : Nat) ≠ 1 := by
  constructor
  · rfl
  · decide

open QueryCache in
/-- **C2 (amended).** After a first cache-miss call whose result is stored via
`set`, an immediate second identical `get` within the TTL returns the same
underlying response content tagged `cached = true` with `cacheHits = 2`, and a
`get` differing only in `topK` (5 instead of 3) is a distinct cache miss. -/
theorem query_cache_hit_and_topK_miss_C2 {α : Type _} (q p : String) (u : Bool)
    (resp : α) (c0 : Cache α) (maxSize ttl t1 t2 : Nat)
    (h3 : JsMap.mapGet c0 (generateKey q p u 3) = none)
    (h5 : JsMap.mapGet c0 (generateKey q p u 5) = none)
    (_h12 : t1 ≤ t2) (httl : t2 - t1 ≤ ttl) :
    (QueryCache.get ttl t1 q p u 3 c0).fst = none ∧
    (QueryCache.get ttl t2 q p u 3 (QueryCache.set maxSize q p u 3 resp t1 c0)).fst =
      some ⟨resp, true, 2, (t2 - t1) / 1000⟩ ∧
    (QueryCache.get ttl t2 q p u 5 (QueryCache.set maxSize q p u 3 resp t1 c0)).fst =
      none := by
  refine ⟨?_, ?_, ?_⟩
  · simp [QueryCache.get, h3]
  · have hget : JsMap.mapGet (QueryCache.set maxSize q p u 3 resp t1 c0)
        (generateKey q p u 3) =
        some ⟨resp, t1, 1, none, q, p, u, 3⟩ := by
      simp [QueryCache.set]
    simp [QueryCache.get, hget, Nat.not_lt.mpr httl]
  · have hne : generateKey q p u 3 ≠ generateKey q p u 5 :=
      generateKey_ne_of_topK q p u 3 5 (by decide)
    have habs : JsMap.mapGet (QueryCache.set maxSize q p u 3 resp t1 c0)
        (generateKey q p u 5) = none := by
      unfold QueryCache.set
      rw [mapGet_mapSet_ne _ _ _ _ hne]
      by_cases hcap : maxSize ≤ c0.length
      · simp only [hcap, if_true]
        rw [evictOldest_eq_tail]
        cases c0 with
        | nil => rfl
        | cons hd tl =>
            simp only [List.tail_cons]
            obtain ⟨k₀, v₀⟩ := hd
            simp only [JsMap.mapGet] at h5
            by_cases h0 : k₀ = generateKey q p u 5
            · simp [h0] at h5
            · simpa [h0] using h5
      · simpa [hcap] using h5
    simp [QueryCache.get, habs]

open QueryCache in
/-- Witness for C2 (amended) at the spec's concrete scenario. -/
theorem query_cache_hit_and_topK_miss_C2_witness :
    JsMap.mapGet ([] : Cache Nat) (generateKey "What is machine learning?" "p1" true 3)
        = none ∧
    JsMap.mapGet ([] : Cache Nat) (generateKey "What is machine learning?" "p1" true 5)
        = none ∧
    (0 : Nat) ≤ 0 ∧ (0 : Nat) - 0 ≤ 3600000 ∧
    ((QueryCache.get 3600000 0 "What is machine learning?" "p1" true 3
        ([] : Cache Nat)).fst = none ∧
     (QueryCache.get 3600000 0 "What is machine learning?" "p1" true 3
        (QueryCache.set 1000 "What is machine learning?" "p1" true 3 (7 : Nat) 0
          [])).fst = some ⟨7, true, 2, (0 - 0) / 1000⟩ ∧
     (QueryCache.get 3600000 0 "What is machine learning?" "p1" true 5
        (QueryCache.set 1000 "What is machine learning?" "p1" true 3 (7 : Nat) 0
          [])).fst = none) :=
  ⟨rfl, rfl, by decide, by decide,
   query_cache_hit_and_topK_miss_C2 "What is machine learning?" "p1" true 7 [] 1000
     3600000 0 0 rfl rfl (by decide) (by decide)⟩

open QueryCache in
/-- Counterexample to C3 as stated: an entry inserted at `T = 0` with
`TTL = 60000` is still returned (a hit, not a miss) by a lookup at exactly
`T + TTL`, because the code expires only on the strict `now - timestamp > ttl`. -/
theorem query_cache_expiry_C3_counterexample :
    (QueryCache.get 60000 60000 "q" "p" true 3
        (QueryCache.set 1000 "q" "p" true 3 (0 : Nat) 0 [])).fst =
      some ⟨0, true, 2, 60⟩ := by
  rfl

open QueryCache in
/-- **C3 (amended).** For every cache entry inserted at time `T` with
time-to-live `TTL`, a lookup at any time strictly greater than `T + TTL`
reports the entry absent and physically deletes it from the store. -/
theorem query_cache_expiry_C3 {α : Type _} (ttl now : Nat) (q p : String)
    (u : Bool) (k : Nat) (c : Cache α) (e : Entry α)
    (hget : JsMap.mapGet c (generateKey q p u k) = some e)
    (hexp : e.timestamp + ttl < now)
    (hnd : (JsMap.keys c).Nodup) :
    (QueryCache.get ttl now q p u k c).fst = none ∧
    (QueryCache.get ttl now q p u k c).snd =
      JsMap.mapDelete c (generateKey q p u k) ∧
    JsMap.mapGet (QueryCache.get ttl now q p u k c).snd (generateKey q p u k) =
      none := by
  have hlt : ttl < now - e.timestamp := by omega
  refine ⟨?_, ?_, ?_⟩
  · simp [QueryCache.get, hget, hlt]
  · simp [QueryCache.get, hget, hlt]
  · simp only [QueryCache.get, hget, hlt, if_true]
    exact JsMap.mapGet_mapDelete_self c _ hnd

open QueryCache in
/-- Witness for C3 (amended): entry inserted at time 0, `TTL = 60000`,
looked up at time 60001. -/
theorem query_cache_expiry_C3_witness :
    JsMap.mapGet (QueryCache.set 1000 "q" "p" true 3 (5 : Nat) 0 [])
        (generateKey "q" "p" true 3) = some ⟨5, 0, 1, none, "q", "p", true, 3⟩ ∧
    (0 : Nat) + 60000 < 60001 ∧
    (JsMap.keys (QueryCache.set 1000 "q" "p" true 3 (5 : Nat) 0 [])).Nodup ∧
    ((QueryCache.get 60000 60001 "q" "p" true 3
        (QueryCache.set 1000 "q" "p" true 3 (5 : Nat) 0 [])).fst = none ∧
     (QueryCache.get 60000 60001 "q" "p" true 3
        (QueryCache.set 1000 "q" "p" true 3 (5 : Nat) 0 [])).snd =
       JsMap.mapDelete (QueryCache.set 1000 "q" "p" true 3 (5 : Nat) 0 [])
         (generateKey "q" "p" true 3) ∧
     JsMap.mapGet
        (QueryCache.get 60000 60001 "q" "p" true 3
          (QueryCache.set 1000 "q" "p" true 3 (5 : Nat) 0 [])).snd
        (generateKey "q" "p" true 3) = none) :=
  ⟨rfl, by decide, by decide,
   query_cache_expiry_C3 60000 60001 "q" "p" true 3
     (QueryCache.set 1000 "q" "p" true 3 (5 : Nat) 0 [])
     ⟨5, 0, 1, none, "q", "p", true, 3⟩ rfl (by decide) (by decide)⟩

open QueryCache in
/-- **C8.** A `set` on a cache already holding `maxSize ≥ 1` entries first
evicts the earliest-inserted entry still present (the head of the
insertion-ordered map — insertion order, not least-recently-used), i.e. the
result is exactly an insert into `cache.tail`; and any `set` on a cache
within capacity leaves at most `maxSize` entries. -/
theorem query_cache_insertion_order_eviction_C8 {α : Type _} (maxSize : Nat)
    (q p : String) (u : Bool) (k : Nat) (resp : α) (now : Nat) (cache : Cache α)
    (hfull : cache.length = maxSize) (hpos : 0 < maxSize) :
    QueryCache.set maxSize q p u k resp now cache =
      JsMap.mapSet cache.tail (generateKey q p u k)
        ⟨resp, now, 1, none, q, p, u, k⟩ ∧
    (QueryCache.set maxSize q p u k resp now cache).length ≤ maxSize ∧
    ∀ c2 : Cache α, c2.length ≤ maxSize →
      (QueryCache.set maxSize q p u k resp now c2).length ≤ maxSize := by
  have hset : ∀ c2 : Cache α, c2.length ≤ maxSize →
      (QueryCache.set maxSize q p u k resp now c2).length ≤ maxSize := by
    intro c2 hle
    unfold QueryCache.set
    by_cases hcap : maxSize ≤ c2.length
    · have hlen2 : c2.length = maxSize := le_antisymm hle hcap
      simp only [hcap, if_true, evictOldest_eq_tail]
      have htail : (List.tail c2).length = maxSize - 1 := by
        simp [List.length_tail, hlen2]
      rcases JsMap.length_mapSet (List.tail c2) (generateKey q p u k)
          ⟨resp, now, 1, none, q, p, u, k⟩ with h | h <;> rw [h, htail] <;> omega
    · simp only [hcap, if_false]
      rcases JsMap.length_mapSet c2 (generateKey q p u k)
          ⟨resp, now, 1, none, q, p, u, k⟩ with h | h <;> rw [h] <;> omega
  refine ⟨?_, hset cache (le_of_eq hfull), hset⟩
  unfold QueryCache.set
  simp [hfull.ge, evictOldest_eq_tail]

open QueryCache in
/-- Witness for C8: a two-entry cache at capacity `maxSize = 2`; the
earliest-inserted entry (`"a|x|true|1"`) is the one evicted. -/
theorem query_cache_insertion_order_eviction_C8_witness :
    (QueryCache.set 2 "c" "z" true 3 (9 : Nat) 5
        [(generateKey "a" "x" true 1, ⟨1, 0, 1, none, "a", "x", true, 1⟩),
         (generateKey "b" "y" true 2, ⟨2, 1, 1, none, "b", "y", true, 2⟩)] =
      JsMap.mapSet
        (List.tail
          [(generateKey "a" "x" true 1, ⟨1, 0, 1, none, "a", "x", true, 1⟩),
           (generateKey "b" "y" true 2, ⟨2, 1, 1, none, "b", "y", true, 2⟩)])
        (generateKey "c" "z" true 3) ⟨9, 5, 1, none, "c", "z", true, 3⟩) ∧
    (QueryCache.set 2 "c" "z" true 3 (9 : Nat) 5
        [(generateKey "a" "x" true 1, ⟨1, 0, 1, none, "a", "x", true, 1⟩),
         (generateKey "b" "y" true 2, ⟨2, 1, 1, none, "b", "y", true, 2⟩)]).length ≤ 2 ∧
    ∀ c2 : Cache Nat, c2.length ≤ 2 →
      (QueryCache.set 2 "c" "z" true 3 (9 : Nat) 5 c2).length ≤ 2 :=
  query_cache_insertion_order_eviction_C8 2 "c" "z" true 3 9 5
    [(generateKey "a" "x" true 1, ⟨1, 0, 1, none, "a", "x", true, 1⟩),
     (generateKey "b" "y" true 2, ⟨2, 1, 1, none, "b", "y", true, 2⟩)]
    (by decide) (by decide)

open QueryCache in
/-- **C10.** The cache key function is not injective: the two distinct tuples
`("a|b", "c", true, 3)` and `("a", "b|c", true, 3)` produce the same key
(the four fields are joined with `"|"` before hashing and a query may contain
`"|"`), so a `get` for the first tuple returns the response a `set` stored
for the second. -/
theorem query_cache_key_collision_C10 :
    ("a|b", "c", true, (3 : Nat)) ≠ ("a", "b|c", true, (3 : Nat)) ∧
    generateKey "a|b" "c" true 3 = generateKey "a" "b|c" true 3 ∧
    (QueryCache.get 60000 0 "a|b" "c" true 3
        (QueryCache.set 1000 "a" "b|c" true 3 (42 : Nat) 0 [])).fst =
      some ⟨42, true, 2, 0⟩ := by
  refine ⟨by decide, rfl, rfl⟩

/-! ## Rate limiter reporting surface: `hashIP`, `getStats` and the
`blockIP` log line -/

namespace RateLimiter

/-- Wrap an integer to JavaScript's signed 32-bit range (`x & x` / `<<`
coercion semantics). -/
def toInt32 (x : Int) : Int := (x + 2 ^ 31) % 2 ^ 32 - 2 ^ 31

/-- One step of `hashIP`'s loop:
`hash = (hash << 5) - hash + char; hash = hash & hash;`. -/
def hashStep (hash : Int) (c : Nat) : Int :=
  toInt32 (toInt32 (hash * 32) - hash + c)

/-- The digit alphabet of JavaScript `Number.prototype.toString(36)`:
`0`–`9` then `a`–`z`. -/
def digitChar36 (d : Nat) : Char :=
  if d < 10 then Char.ofNat (48 + d) else Char.ofNat (87 + d)

/-- Fuelled base-36 digit expansion (most significant digit first). -/
def toBase36Core : Nat → Nat → List Char → List Char
  | 0, _, acc => acc
  | fuel + 1, n, acc =>
      if n < 36 then digitChar36 n :: acc
      else toBase36Core fuel (n / 36) (digitChar36 (n % 36) :: acc)

/-- `n.toString(36)` for a natural number. -/
def toBase36 (n : Nat) : String := String.mk (toBase36Core (n + 1) n [])

/-- `hashIP(ip)`: the 32-bit string hash rendered with
`Math.abs(hash).toString(36)`. Characters are taken as code points
(`charCodeAt` code units coincide for the BMP identities in play). -/
def hashIP (ip : String) : String :=
  toBase36 (Int.natAbs (ip.data.foldl (fun h c => hashStep h c.toNat) 0))

/-- One element of `getStats().activeRequests`. -/
structure ActiveStat where
  ip : String
  requests : Nat
  remainingTime : Nat
  deriving DecidableEq, Repr

/-- One element of `getStats().blockedIPs`. -/
structure BlockedStat where
  ip : String
  remainingTime : Nat
  deriving DecidableEq, Repr

/-- The object returned by `getStats()`. In the source the literal names
`blockedIPs` twice (a count, then the array); the later array wins, so only
the array is modelled. -/
structure Stats where
  activeWindows : Nat
  totalTrackedIPs : Nat
  windowDuration : Nat
  maxRequests : Nat
  activeRequests : List ActiveStat
  blockedIPs : List BlockedStat
  deriving DecidableEq, Repr

/-- `getStats()` at time `now`: filter live windows and live blocks, then
report each identity as `this.hashIP(ip)`. -/
def getStats (cfg : Config) (now : Nat) (s : State) : Stats :=
  let activeRequests := s.requests.filter (fun p => decide (now < p.2.resetTime))
  let blocked := s.blockedIPs.filter (fun p => decide (now < p.2))
  { activeWindows := activeRequests.length
    totalTrackedIPs := s.requests.length
    windowDuration := cfg.windowMs / 1000
    maxRequests := cfg.maxRequests
    activeRequests := activeRequests.map (fun p =>
      ⟨hashIP p.1, p.2.count, ceilSeconds (p.2.resetTime - now)⟩)
    blockedIPs := blocked.map (fun p => ⟨hashIP p.1, ceilSeconds (p.2 - now)⟩) }

end RateLimiter

open RateLimiter in
/-- Counterexample to C9 as stated: the log line `blockIP` emits for caller
`"ip-A"` interpolates the identity itself in clear text, and that identity is
not its `hashIP` digest — so not every logged identity is the digest. -/
theorem rate_limiter_cleartext_log_C9_counterexample :
    blockIPLog "ip-A" defaultBlockMs = "IP ip-A blocked for 3600 seconds" ∧
    hashIP "ip-A" ≠ "ip-A" := by
  exact ⟨rfl, by decide⟩

open RateLimiter in
/-- **C9 (amended).** Every identity shown on the `getStats` reporting
surface (active windows and blocked callers) is the `hashIP` digest of a
tracked identity; but `blockIP`'s log line embeds the caller identity itself
verbatim, in clear text. -/
theorem rate_limiter_stats_hashed_C9 (cfg : Config) (now : Nat)
    (s : RateLimiter.State) :
    (∀ e ∈ (getStats cfg now s).activeRequests,
       ∃ ip data, (ip, data) ∈ s.requests ∧ e.ip = hashIP ip) ∧
    (∀ e ∈ (getStats cfg now s).blockedIPs,
       ∃ ip expiry, (ip, expiry) ∈ s.blockedIPs ∧ e.ip = hashIP ip) ∧
    ∀ ip durationMs, ∃ pre post, blockIPLog ip durationMs = pre ++ ip ++ post := by
  refine ⟨?_, ?_, ?_⟩
  · intro e he
    simp only [getStats, List.mem_map] at he
    obtain ⟨p, hp, hpe⟩ := he
    exact ⟨p.1, p.2, List.mem_of_mem_filter hp, by rw [← hpe]⟩
  · intro e he
    simp only [getStats, List.mem_map] at he
    obtain ⟨p, hp, hpe⟩ := he
    exact ⟨p.1, p.2, List.mem_of_mem_filter hp, by rw [← hpe]⟩
  · intro ip durationMs
    refine ⟨"IP ", " blocked for " ++ toString (durationMs / 1000) ++ " seconds", ?_⟩
    simp [blockIPLog, String.append_assoc]

/-! ## Related-question sampling (`related-questions.js`) -/

namespace RelatedQuestions

/-- JavaScript `a || b` on strings: the empty string is falsy (and a missing
payload field behaves the same way). -/
def jsOr (a b : String) : String := if a = "" then b else a

/-- One similarity-search hit's payload fields, with a missing field modelled
as `""` (it is falsy either way under `||`). The score type is abstract: the
code only copies scores, never computes with them. The opaque `meta` payload
is likewise only copied verbatim and is not modelled. -/
structure Hit (σ : Type _) where
  content : String
  question : String
  answer : String
  score : σ
  deriving DecidableEq, Repr

/-- One mapped related-question candidate. -/
structure RQItem (σ : Type _) where
  question : String
  score : σ
  answer : String
  deriving DecidableEq, Repr

/-- `SKIP_COUNT` in `getRelatedQuestions`. -/
def skipCount : Nat := 8

/-- `TAKE_COUNT` in `getRelatedQuestions`. -/
def takeCount : Nat := 10

/-- The per-hit mapping:
`question: hit.payload.content || hit.payload.question || ""`,
`answer: hit.payload.answer || hit.payload.content`. -/
def mkItem {σ : Type _} (h : Hit σ) : RQItem σ :=
  ⟨jsOr (jsOr h.content h.question) "", h.score, jsOr h.answer h.content⟩

/-- The regex class `\s` restricted to the ASCII whitespace characters. -/
def isWS (c : Char) : Bool :=
  c = ' ' || c = '\t' || c = '\n' || c = '\r' || c = '\x0b' || c = '\x0c'

/-- `replace(/\s+/g, " ")`: collapse each maximal whitespace run to one
space; `prevWS` records whether the previous character was in the run. -/
def collapseAux : Bool → List Char → List Char
  | _, [] => []
  | prevWS, c :: rest =>
      if isWS c then
        if prevWS then collapseAux true rest
        else ' ' :: collapseAux true rest
      else c :: collapseAux false rest

/-- `replace(/\s+/g, " ")` on a whole character list. -/
def collapseWS (l : List Char) : List Char := collapseAux false l

/-- `trim()`: strip leading and trailing whitespace. -/
def jsTrim (l : List Char) : List Char :=
  ((l.dropWhile isWS).reverse.dropWhile isWS).reverse

/-- The `cleanQuestion` normalisation:
`result.question.toLowerCase().replace(/\s+/g, " ").trim()`. -/
def normalize (s : String) : String :=
  String.mk (jsTrim (collapseWS (s.data.map Char.toLower)))

/-- The de-duplication loop over `seenQuestions`, preserving first-seen
order. -/
def dedupAux {σ : Type _} (seen : List String) : List (RQItem σ) → List (RQItem σ)
  | [] => []
  | r :: rest =>
      let clean := normalize r.question
      if seen.contains clean then dedupAux seen rest
      else r :: dedupAux (clean :: seen) rest

/-- `getRelatedQuestions`' `relatedQuestions` list as computed from the raw
similarity-search hit list: skip the first 8 hits, take the next 10, map to
candidates, de-duplicate on normalised question text, keep the first 4. -/
def getRelatedQuestions {σ : Type _} (searchResult : List (Hit σ)) : List (RQItem σ) :=
  let initialResults := ((searchResult.drop skipCount).take takeCount).map mkItem
  let uniqueResults := dedupAux [] initialResults
  uniqueResults.take 4

theorem dedupAux_cons_mem {σ : Type _} (seen : List String) (r : RQItem σ)
    (rest : List (RQItem σ)) (h : normalize r.question ∈ seen) :
    dedupAux seen (r :: rest) = dedupAux seen rest := by
  simp [dedupAux, h]

theorem dedupAux_cons_not_mem {σ : Type _} (seen : List String) (r : RQItem σ)
    (rest : List (RQItem σ)) (h : normalize r.question ∉ seen) :
    dedupAux seen (r :: rest) = r :: dedupAux (normalize r.question :: seen) rest := by
  simp [dedupAux, h]

theorem dedupAux_sublist {σ : Type _} (seen : List String) (l : List (RQItem σ)) :
    (dedupAux seen l).Sublist l := by
  induction l generalizing seen with
  | nil => simp [dedupAux]
  | cons r rest ih =>
      by_cases h : normalize r.question ∈ seen
      · rw [dedupAux_cons_mem seen r rest h]
        exact (ih seen).trans (List.sublist_cons_self r rest)
      · rw [dedupAux_cons_not_mem seen r rest h]
        exact (ih _).cons₂ r

theorem dedupAux_not_mem_seen {σ : Type _} (seen : List String) (l : List (RQItem σ)) :
    ∀ r ∈ dedupAux seen l, normalize r.question ∉ seen := by
  induction l generalizing seen with
  | nil => simp [dedupAux]
  | cons r rest ih =>
      by_cases h : normalize r.question ∈ seen
      · rw [dedupAux_cons_mem seen r rest h]
        exact ih seen
      · rw [dedupAux_cons_not_mem seen r rest h]
        intro r' hr'
        rcases List.mem_cons.mp hr' with h' | h'
        · subst h'; exact h
        · have := ih (normalize r.question :: seen) r' h'
          intro hmem
          exact this (List.mem_cons_of_mem _ hmem)

theorem dedupAux_pairwise {σ : Type _} (seen : List String) (l : List (RQItem σ)) :
    (dedupAux seen l).Pairwise
      (fun a b => normalize a.question ≠ normalize b.question) := by
  induction l generalizing seen with
  | nil => simp [dedupAux]
  | cons r rest ih =>
      by_cases h : normalize r.question ∈ seen
      · rw [dedupAux_cons_mem seen r rest h]
        exact ih seen
      · rw [dedupAux_cons_not_mem seen r rest h]
        refine List.Pairwise.cons ?_ (ih _)
        intro b hb
        have := dedupAux_not_mem_seen _ _ b hb
        intro heq
        exact this (heq ▸ List.mem_cons_self _ _)

end RelatedQuestions

open RelatedQuestions in
/-- **C7.** For every similarity-search hit list, the related-questions
result is drawn (in order) from the window that skips the first 8 hits and
takes the next 10, has length at most 4, and contains no two items whose
question texts agree after lower-casing and whitespace collapsing. -/
theorem related_questions_sampling_C7 {σ : Type _} (searchResult : List (Hit σ)) :
    (getRelatedQuestions searchResult).length ≤ 4 ∧
    (getRelatedQuestions searchResult).Sublist
      (((searchResult.drop skipCount).take takeCount).map mkItem) ∧
    (getRelatedQuestions searchResult).Pairwise
      (fun a b =>
        RelatedQuestions.normalize a.question ≠
          RelatedQuestions.normalize b.question) := by
  refine ⟨List.length_take_le _ _, ?_, ?_⟩
  · exact (List.take_sublist _ _).trans (dedupAux_sublist [] _)
  · exact (dedupAux_pairwise [] _).sublist (List.take_sublist _ _)

/-! ## Conversational chatbot router (`conversational-chatbot.js`) -/

namespace Chatbot

open RelatedQuestions

/-- One `ConversationTurn` as pushed by `addToHistory`. -/
structure Turn where
  role : String
  message : String
  timestamp : Nat
  deriving DecidableEq, Repr

/-- `this.conversationHistory`: session id → turn list. -/
def SessionMap := List (String × List Turn)

/-- A retrieved document. Only `content` is consulted by the router; the
`score`/`metadata` payload fields are carried opaquely and elided. -/
structure Doc where
  content : String
  deriving DecidableEq, Repr

/-- The value of `this.ragPipeline.retrieveDocuments(query, topK)`. -/
structure RetrievalResult where
  success : Bool
  documents : List Doc
  deriving DecidableEq, Repr

/-- The value of `this.llmFactory.generateResponse(provider, prompt, options)`
on success; `usage` is opaque to the router. -/
structure LLMOut (υ : Type _) where
  response : String
  provider : String
  model : String
  usage : υ
  deriving DecidableEq, Repr

/-- The response object either generation path returns. A JavaScript field
absent from a path's object literal is `none` / `false` here. -/
structure RespResult (σ υ : Type _) where
  response : Option String := none
  provider : Option String := none
  model : Option String := none
  usage : Option υ := none
  conversational : Bool := false
  ragUsed : Bool := false
  contextDocuments : Option Nat := none
  sessionId : Option String := none
  query : String := ""
  retrievedDocuments : Option (List Doc) := none
  relatedQuestions : Option (List (RQItem σ)) := none
  errorMsg : Option String := none

/-- `getConversationContext(sessionId, limit = 5)`: `history.slice(-limit)`. -/
def getConversationContext (hist : SessionMap) (sessionId : String)
    (limit : Nat) : List Turn :=
  let history := (JsMap.mapGet hist sessionId).getD []
  history.drop (history.length - limit)

/-- `addToHistory(sessionId, role, message)` at time `now`: push the turn and
shift the oldest one off when more than 20 remain. -/
def addToHistory (hist : SessionMap) (sessionId role message : String)
    (now : Nat) : SessionMap :=
  let history := (JsMap.mapGet hist sessionId).getD []
  let history := history ++ [⟨role, message, now⟩]
  let history := if 20 < history.length then history.tail else history
  JsMap.mapSet hist sessionId history

/-- The `contextText` / `conversationText` rendering of a turn list. -/
def contextTextOf (ctx : List Turn) : String :=
  String.intercalate "\n"
    (ctx.map (fun msg =>
      (if msg.role = "user" then "User" else "Assistant") ++ ": " ++ msg.message))

/-- The conversational prompt template of `generateConversationalResponse`. -/
def conversationalPrompt (contextText query : String) : String :=
  "You are a helpful and friendly chatbot assistant for a platform called " ++
  "Linkbuilders. You should behave naturally and conversationally, like a " ++
  "helpful customer service representative.\n\nPrevious conversation:\n" ++
  contextText ++
  "\n\nCurrent user message: \"" ++ query ++ "\"\n\nGuidelines:\n" ++
  "- Be friendly, helpful, and conversational\n" ++
  "- Don\x27t start responses with \"Based on the context\" or similar formal language\n" ++
  "- Ask follow-up questions when appropriate\n" ++
  "- Show empathy and understanding\n" ++
  "- Keep responses concise but helpful\n" ++
  "- If the user asks about specific features or how-to questions, offer to provide more details\n" ++
  "- Use natural language like \"I\x27d be happy to help you with that!\" or \"That\x27s a great question!\"\n\n" ++
  "Please respond naturally to the user\x27s message:"

/-- The retrieval-augmented (`enhancedPrompt`) template of
`generateRAGResponse`, used only when `contextText` is non-empty. -/
def ragPrompt (conversationText contextText query : String) : String :=
  "You are a helpful chatbot assistant for Linkbuilders platform. The user " ++
  "is asking about something specific, and I have some relevant information " ++
  "to help answer their question.\n\nPrevious conversation:\n" ++
  conversationText ++
  "\n\nRelevant information from our knowledge base:\n" ++ contextText ++
  "\n\nUser\x27s question: \"" ++ query ++ "\"\n\n" ++
  "Please provide a helpful, conversational response that:\n" ++
  "- Uses the provided information to answer accurately\n" ++
  "- Maintains a friendly, helpful tone\n" ++
  "- Doesn\x27t start with \"Based on the context\" - just answer naturally\n" ++
  "- If the information isn\x27t sufficient, use your general knowledge but " ++
  "make sure to disclose that it\x27s a general knowledge answer rather not " ++
  "specific to our company (linkbuilders)\n" ++
  "- Keep the response focused and helpful\n\nResponse:"

/-- `generateConversationalResponse(query, sessionId, provider, options)`:
build the conversational prompt from the last five turns, call the provider,
record both turns; a provider throw is caught and reported as an error
object. Returns the response object and the updated history. The provider
call is the abstract `llm` function (`Except` models a throw). -/
def generateConversationalResponse {σ υ : Type _}
    (llm : String → Except String (LLMOut υ)) (now : Nat) (hist : SessionMap)
    (query sessionId provider : String) : RespResult σ υ × SessionMap :=
  let context := getConversationContext hist sessionId 5
  let contextText := contextTextOf context
  match llm (conversationalPrompt contextText query) with
  | .ok r =>
      ({ response := some r.response, provider := some r.provider,
         model := some r.model, usage := some r.usage, conversational := true,
         sessionId := some sessionId, query := query },
       addToHistory (addToHistory hist sessionId "user" query now)
         sessionId "assistant" r.response now)
  | .error e =>
      ({ errorMsg := some e, query := query, provider := some provider,
         conversational := true }, hist)

/-- `generateRAGResponse(query, sessionId, provider, topK, options)`:
assemble `contextText` from the retrieval result (filtering empty contents,
joining with a blank line); when it is empty — retrieval failed or yielded
no usable document — fall back to the conversational path; otherwise call
the provider on the enhanced prompt, attach related questions sampled from
`rqHits` (the second, larger search's hit list), and record both turns.
A provider throw in the RAG branch is caught and likewise falls back. -/
def generateRAGResponse {σ υ : Type _} (llm : String → Except String (LLMOut υ))
    (now : Nat) (hist : SessionMap) (retrievalResult : RetrievalResult)
    (rqHits : List (Hit σ)) (query sessionId provider : String) :
    RespResult σ υ × SessionMap :=
  let contextDocs := if retrievalResult.success then retrievalResult.documents else []
  let contextText :=
    String.intercalate "\n\n"
      ((contextDocs.filter (fun d => d.content ≠ "")).map (fun d => d.content))
  let conversationText := contextTextOf (getConversationContext hist sessionId 5)
  if contextText = "" then
    generateConversationalResponse llm now hist query sessionId provider
  else
    match llm (ragPrompt conversationText contextText query) with
    | .ok r =>
        ({ response := some r.response, provider := some r.provider,
           model := some r.model, usage := some r.usage, ragUsed := true,
           contextDocuments := some contextDocs.length,
           sessionId := some sessionId, query := query,
           retrievedDocuments := some contextDocs,
           relatedQuestions := some (getRelatedQuestions rqHits) },
         addToHistory (addToHistory hist sessionId "user" query now)
           sessionId "assistant" r.response now)
    | .error _ =>
        generateConversationalResponse llm now hist query sessionId provider

end Chatbot

open Chatbot in
/-- **C6.** Whenever the retrieval step fails or returns zero usable (non-empty)
documents, `generateRAGResponse` returns exactly the conversational-path
result: with the provider succeeding on the conversational prompt, the
response is a successful generation, carries no `retrievedDocuments`, and no
error — the request is never failed because of an empty or failed retrieval. -/
theorem chatbot_retrieval_degradation_C6 {σ υ : Type _}
    (llm : String → Except String (Chatbot.LLMOut υ)) (now : Nat)
    (hist : Chatbot.SessionMap) (retrievalResult : Chatbot.RetrievalResult)
    (rqHits : List (RelatedQuestions.Hit σ)) (query sessionId provider : String)
    (out : Chatbot.LLMOut υ)
    (hempty : retrievalResult.success = false ∨
      ∀ d ∈ retrievalResult.documents, d.content = "")
    (hllm : llm (conversationalPrompt
        (contextTextOf (getConversationContext hist sessionId 5)) query) =
      .ok out) :
    generateRAGResponse llm now hist retrievalResult rqHits query sessionId provider =
      generateConversationalResponse llm now hist query sessionId provider ∧
    (generateRAGResponse llm now hist retrievalResult rqHits
        query sessionId provider).fst.response = some out.response ∧
    (generateRAGResponse llm now hist retrievalResult rqHits
        query sessionId provider).fst.errorMsg = none ∧
    (generateRAGResponse llm now hist retrievalResult rqHits
        query sessionId provider).fst.retrievedDocuments = none := by
  have hdocs : ((if retrievalResult.success then retrievalResult.documents
      else []).filter (fun d => d.content ≠ "")) = [] := by
    rcases hempty with h | h
    · simp [h]
    · rcases hs : retrievalResult.success with _ | _
      · simp
      · simp only [if_true]
        exact List.filter_eq_nil_iff.mpr (fun d hd => by simp [h d hd])
  have hfall : generateRAGResponse llm now hist retrievalResult rqHits
      query sessionId provider =
      generateConversationalResponse llm now hist query sessionId provider := by
    simp only [generateRAGResponse, hdocs, List.map_nil]
    have hempty' : String.intercalate "\n\n" ([] : List String) = "" := rfl
    rw [hempty']
    simp
  have hconv : (generateConversationalResponse llm now hist
      query sessionId provider : Chatbot.RespResult σ υ × Chatbot.SessionMap).fst =
      { response := some out.response, provider := some out.provider,
        model := some out.model, usage := some out.usage, conversational := true,
        sessionId := some sessionId, query := query } := by
    simp only [generateConversationalResponse, hllm]
  exact ⟨hfall, by rw [hfall, hconv], by rw [hfall, hconv], by rw [hfall, hconv]⟩

open Chatbot in
/-- Witness for C6: a failed retrieval (`success = false`) with a provider
that answers `"hello!"` to every prompt; history empty. -/
theorem chatbot_retrieval_degradation_C6_witness :
    ((Chatbot.RetrievalResult.mk false [] : Chatbot.RetrievalResult).success = false ∨
      ∀ d ∈ (Chatbot.RetrievalResult.mk false []).documents, d.content = "") ∧
    ((fun _ => Except.ok (Chatbot.LLMOut.mk "hello!" "gemini" "g-1" (0 : Nat))) :
        String → Except String (Chatbot.LLMOut Nat))
      (conversationalPrompt
        (contextTextOf (getConversationContext ([] : Chatbot.SessionMap) "s1" 5))
        "hi") = .ok (Chatbot.LLMOut.mk "hello!" "gemini" "g-1" 0) ∧
    (generateRAGResponse (σ := Nat)
        (fun _ => Except.ok (Chatbot.LLMOut.mk "hello!" "gemini" "g-1" (0 : Nat)))
        0 [] (Chatbot.RetrievalResult.mk false []) [] "hi" "s1" "gemini" =
      generateConversationalResponse
        (fun _ => Except.ok (Chatbot.LLMOut.mk "hello!" "gemini" "g-1" 0))
        0 [] "hi" "s1" "gemini" ∧
     (generateRAGResponse (σ := Nat)
        (fun _ => Except.ok (Chatbot.LLMOut.mk "hello!" "gemini" "g-1" (0 : Nat)))
        0 [] (Chatbot.RetrievalResult.mk false []) [] "hi" "s1"
        "gemini").fst.response = some (Chatbot.LLMOut.mk "hello!" "gemini" "g-1" 0).response ∧
     (generateRAGResponse (σ := Nat)
        (fun _ => Except.ok (Chatbot.LLMOut.mk "hello!" "gemini" "g-1" (0 : Nat)))
        0 [] (Chatbot.RetrievalResult.mk false []) [] "hi" "s1"
        "gemini").fst.errorMsg = none ∧
     (generateRAGResponse (σ := Nat)
        (fun _ => Except.ok (Chatbot.LLMOut.mk "hello!" "gemini" "g-1" (0 : Nat)))
        0 [] (Chatbot.RetrievalResult.mk false []) [] "hi" "s1"
        "gemini").fst.retrievedDocuments = none) :=
  ⟨Or.inl rfl, rfl,
   chatbot_retrieval_degradation_C6
     (fun _ => Except.ok (Chatbot.LLMOut.mk "hello!" "gemini" "g-1" 0))
     0 [] (Chatbot.RetrievalResult.mk false []) [] "hi" "s1" "gemini"
     (Chatbot.LLMOut.mk "hello!" "gemini" "g-1" 0) (Or.inl rfl) rfl⟩

/-! ## Worker bridge (`pythonProcessManager.js`) -/

namespace Worker

/-- One entry of `this.activeProcesses`: the spawned process handle is
external; its script name and start time are tracked. -/
structure ProcInfo where
  scriptName : String
  startTime : Nat
  deriving DecidableEq, Repr

/-- `this.activeProcesses`: process id → info. -/
def Registry := List (String × ProcInfo)

/-- How the `executeScript` promise settled. -/
inductive Outcome (α : Type _) where
  | resolved (v : α)
  | rejected (msg : String)
  deriving DecidableEq, Repr

/-- The observable state of one `executeScript` invocation: the shared
active-process registry, how (whether) its promise has settled, and whether
a termination signal has been sent to the child. -/
structure ExecState (α : Type _) where
  registry : Registry
  settled : Option (Outcome α)
  killSent : Bool

/-- Registering the freshly spawned process:
`this.activeProcesses.set(processId, {...})`. -/
def spawnRegister {α : Type _} (processId : String) (info : ProcInfo)
    (st : ExecState α) : ExecState α :=
  { st with registry := JsMap.mapSet st.registry processId info }

/-- `killProcess(processId)`: if the process is registered, send `SIGTERM`
and delete it from the registry; returns the new registry and whether a
signal was sent. -/
def killProcess (processId : String) (reg : Registry) : Registry × Bool :=
  if (JsMap.mapGet reg processId).isSome then
    (JsMap.mapDelete reg processId, true)
  else (reg, false)

/-- The timeout timer firing for a still-running task:
`this.killProcess(processId); reject(new Error(...))`. The timer only exists
while the promise is unsettled (`close`/`error` clear it, and a settled
promise ignores a late `reject`), hence the guard. -/
def onTimeout {α : Type _} (processId scriptName : String) (st : ExecState α) :
    ExecState α :=
  if st.settled.isSome then st
  else
    let (reg, sent) := killProcess processId st.registry
    { registry := reg,
      settled := some (.rejected ("Python process timeout: " ++ scriptName)),
      killSent := sent }

end Worker

open Worker in
/-- **C5.** For a spawned task still unsettled (its process has not exited)
and still registered when the timeout timer fires, `onTimeout` sends the
termination signal, rejects the promise with the timeout error naming the
script, and leaves the process id absent from the active-process registry. -/
theorem worker_timeout_C5 {α : Type _} (processId scriptName : String)
    (st : Worker.ExecState α)
    (hunsettled : st.settled = none)
    (hactive : (JsMap.mapGet st.registry processId).isSome = true)
    (hnd : (JsMap.keys st.registry).Nodup) :
    (onTimeout processId scriptName st).killSent = true ∧
    (onTimeout processId scriptName st).settled =
      some (.rejected ("Python process timeout: " ++ scriptName)) ∧
    JsMap.mapGet (onTimeout processId scriptName st).registry processId = none := by
  unfold onTimeout
  rw [hunsettled]
  simp only [Option.isSome_none, Bool.false_eq_true, if_false, killProcess, hactive,
    if_true]
  exact ⟨trivial, trivial, JsMap.mapGet_mapDelete_self _ _ hnd⟩

open Worker in
/-- Witness for C5: one registered process `"emb_17"` running script
`"embed"`, unsettled state. -/
theorem worker_timeout_C5_witness :
    (Worker.ExecState.mk (α := Nat) [("emb_17", ⟨"embed", 3⟩)] none false).settled
        = none ∧
    (JsMap.mapGet (Worker.ExecState.mk (α := Nat)
        [("emb_17", ⟨"embed", 3⟩)] none false).registry "emb_17").isSome = true ∧
    (JsMap.keys (Worker.ExecState.mk (α := Nat)
        [("emb_17", ⟨"embed", 3⟩)] none false).registry).Nodup ∧
    ((onTimeout "emb_17" "embed"
        (Worker.ExecState.mk (α := Nat)
          [("emb_17", ⟨"embed", 3⟩)] none false)).killSent = true ∧
     (onTimeout "emb_17" "embed"
        (Worker.ExecState.mk (α := Nat)
          [("emb_17", ⟨"embed", 3⟩)] none false)).settled =
       some (.rejected ("Python process timeout: " ++ "embed")) ∧
     JsMap.mapGet (onTimeout "emb_17" "embed"
        (Worker.ExecState.mk (α := Nat)
          [("emb_17", ⟨"embed", 3⟩)] none false)).registry "emb_17" = none) :=
  ⟨rfl, rfl, by decide,
   worker_timeout_C5 "emb_17" "embed"
     (Worker.ExecState.mk [("emb_17", ⟨"embed", 3⟩)] none false)
     rfl rfl (by decide)⟩
